import Mathlib

/-!
Verification of the GEM-ML example notebooks of the `eo-learn-examples`
repository (water segmentation, deforestation detection, Treecurrent).

The notebooks are shallowly embedded below: every definition is transcribed
from the notebook cells (configuration values, validity checkers, the
reference evalscript, the `Torchify` transform, the workflow DAGs and the
workflow-argument loops).  Components of the repository's `libs/` package
that are only imported by the notebooks (`mergeTDigests`,
`QuantileScaler_eolearn_tdigest`, `SaveValidTask`, the retry behaviour of
`ModelForwardTask`) are modelled from the specification, as marked in their
doc comments.
-/

namespace EOLearnExamples

/-! ## Generic workflow-DAG scheduling

`EOWorkflow.from_endnodes` executes an acyclic graph of `EONode`s; a node may
only run once all of its `inputs` have run.  We model an execution order as a
list of nodes and check the prerequisite discipline with `schedOK`. -/

/-- Position of the first occurrence of `a` in a list (length of the list if
absent); used to compare execution positions of workflow nodes. -/
def posOf {α : Type} [DecidableEq α] (a : α) : List α → Nat
  | [] => 0
  | b :: l => if b = a then 0 else posOf a l + 1

/-- Check that every node of `order` is preceded (in `seen ++ earlier part of
`order`) by all of its workflow inputs. -/
def schedOK {α : Type} [DecidableEq α] (inputs : α → List α) : List α → List α → Bool
  | _, [] => true
  | seen, n :: rest =>
      ((inputs n).all fun b => decide (b ∈ seen)) && schedOK inputs (n :: seen) rest

/-- A valid execution order of a workflow: it contains every node of the
workflow and respects the input dependencies. -/
def validSchedule {α : Type} [DecidableEq α] (inputs : α → List α)
    (nodes order : List α) : Bool :=
  (nodes.all fun n => decide (n ∈ order)) && schedOK inputs [] order

theorem schedOK_posOf {α : Type} [DecidableEq α] (inputs : α → List α) :
    ∀ (order seen : List α), schedOK inputs seen order = true →
      ∀ a b : α, a ∈ order → b ∈ inputs a → ¬ b ∈ seen →
        posOf b order < posOf a order := by
  intro order
  induction order with
  | nil =>
      intro seen _ a b ha
      exact absurd ha (List.not_mem_nil a)
  | cons n rest ih =>
      intro seen h a b ha hb hbseen
      simp only [schedOK, Bool.and_eq_true, List.all_eq_true] at h
      obtain ⟨hin, hrest⟩ := h
      by_cases hna : n = a
      · subst hna
        exact absurd (of_decide_eq_true (hin b hb)) hbseen
      · have ha' : a ∈ rest := by
          rcases List.mem_cons.mp ha with h1 | h1
          · exact absurd h1.symm hna
          · exact h1
        by_cases hnb : n = b
        · subst hnb
          simp only [posOf, if_pos rfl, if_neg hna]
          exact Nat.succ_pos _
        · have hbseen' : ¬ b ∈ (n :: seen) := by
            intro hmem
            rcases List.mem_cons.mp hmem with h1 | h1
            · exact hnb h1.symm
            · exact hbseen h1
          have hlt := ih (n :: seen) hrest a b ha' hb hbseen'
          simp only [posOf, if_neg hna, if_neg hnb]
          omega

theorem validSchedule_input_before {α : Type} [DecidableEq α]
    (inputs : α → List α) (nodes order : List α)
    (h : validSchedule inputs nodes order = true) (a b : α)
    (ha : a ∈ nodes) (hb : b ∈ inputs a) :
    posOf b order < posOf a order := by
  simp only [validSchedule, Bool.and_eq_true, List.all_eq_true] at h
  obtain ⟨hmem, hsched⟩ := h
  exact schedOK_posOf inputs order [] hsched a b
    (of_decide_eq_true (hmem a ha)) hb (List.not_mem_nil b)

/-! ## C2 — pipeline stage order

Each configuration notebook fixes the notebook sequence of its pipeline
(`config.file_DataAcquisition = "01_DataAcquisition.ipynb"`, ...), and the
data-acquisition notebook of the water-segmentation example builds the
workflow DAG out of `EONode`s (`node_data -> node_pick -> node_tdigest ->
node_data_check`, `node_reference -> node_reference_mask ->
node_reference_check`, both joined by `node_merge -> node_zip ->
node_save`). -/

/-- Check that a list of stage numbers is strictly ascending. -/
def ascendingb : List Nat → Bool
  | [] => true
  | [_] => true
  | a :: b :: t => (decide (a < b)) && ascendingb (b :: t)

/-- Numeric value of the leading decimal digits of a notebook file name. -/
def digitsToNat (cs : List Char) : Nat :=
  cs.foldl (fun n c => 10 * n + (c.toNat - 48)) 0

/-- Number carried by a notebook file name such as `02_DataNormalization.ipynb`. -/
def leadingNumber (s : String) : Nat :=
  digitsToNat (s.toList.takeWhile Char.isDigit)

/-- Notebook sequence of the water-segmentation pipeline: the configuration
notebook itself followed by the `config.file_*` assignments of
`00_Configuration.ipynb`. -/
def waterSegNotebookSequence : List String :=
  ["00_Configuration.ipynb",
   "01_DataAcquisition.ipynb",
   "02_DataNormalization.ipynb",
   "03_TrainingValidationTesting.ipynb",
   "04_PyTorchTasks_ModelForwardTask.ipynb"]

/-- Notebook sequence of the deforestation-detection pipeline: the
configuration notebook itself followed by the `config.file_*` assignments of
its configuration notebook (`config.file_showcase = "04_Inference_Clouds.ipynb"`). -/
def deforestationNotebookSequence : List String :=
  ["00_Configuration.ipynb",
   "01_DataAcquisition.ipynb",
   "02_DataNormalization.ipynb",
   "03_TrainingValidationTesting.ipynb",
   "04_Inference_Clouds.ipynb"]

/-- Nodes of the water-segmentation data-acquisition workflow
(`01_DataAcquisition.ipynb`). -/
inductive AcqNode
  | data | pick | tdigest | dataCheck
  | reference | referenceMask | referenceCheck
  | merge | zip | save
  deriving DecidableEq

/-- Input dependencies of the acquisition workflow nodes, transcribed from the
`EONode(task = ..., inputs = [...])` definitions. -/
def acqInputs : AcqNode → List AcqNode
  | .data => []
  | .pick => [.data]
  | .tdigest => [.pick]
  | .dataCheck => [.tdigest]
  | .reference => []
  | .referenceMask => [.reference]
  | .referenceCheck => [.referenceMask]
  | .merge => [.dataCheck, .referenceCheck]
  | .zip => [.merge]
  | .save => [.zip]

/-- All nodes of the acquisition workflow. -/
def allAcqNodes : List AcqNode :=
  [.data, .pick, .tdigest, .dataCheck,
   .reference, .referenceMask, .referenceCheck,
   .merge, .zip, .save]

/-- The execution order produced by `EOWorkflow.from_endnodes(node_save)`
follows the node dependencies; this is one such order. -/
def acqExecutionOrder : List AcqNode :=
  [.data, .pick, .tdigest, .dataCheck,
   .reference, .referenceMask, .referenceCheck,
   .merge, .zip, .save]

/-- C2: both configured example pipelines list their notebooks in strictly
increasing stage order (configuration, acquisition, normalization,
training/evaluation, inference/showcase), and in every execution order of the
acquisition workflow DAG that respects the `EONode` inputs, no node runs
before a node it depends on: the save node runs after the zip node, which
runs after the merge node, which runs after both check chains. -/
theorem C2_pipeline_stage_order :
    (waterSegNotebookSequence.map leadingNumber = [0, 1, 2, 3, 4] ∧
     ascendingb (waterSegNotebookSequence.map leadingNumber) = true ∧
     deforestationNotebookSequence.map leadingNumber = [0, 1, 2, 3, 4] ∧
     ascendingb (deforestationNotebookSequence.map leadingNumber) = true) ∧
    ∀ order : List AcqNode, validSchedule acqInputs allAcqNodes order = true →
      posOf AcqNode.data order < posOf AcqNode.pick order ∧
      posOf AcqNode.pick order < posOf AcqNode.tdigest order ∧
      posOf AcqNode.tdigest order < posOf AcqNode.dataCheck order ∧
      posOf AcqNode.dataCheck order < posOf AcqNode.merge order ∧
      posOf AcqNode.reference order < posOf AcqNode.referenceMask order ∧
      posOf AcqNode.referenceMask order < posOf AcqNode.referenceCheck order ∧
      posOf AcqNode.referenceCheck order < posOf AcqNode.merge order ∧
      posOf AcqNode.merge order < posOf AcqNode.zip order ∧
      posOf AcqNode.zip order < posOf AcqNode.save order := by
  refine ⟨⟨by decide, by decide, by decide, by decide⟩, ?_⟩
  intro order h
  refine ⟨?_, ?_, ?_, ?_, ?_, ?_, ?_, ?_, ?_⟩ <;>
    exact validSchedule_input_before acqInputs allAcqNodes order h _ _
      (by decide) (by decide)

/-- Witness for C2 at the concrete execution order of the acquisition
workflow. -/
theorem C2_pipeline_stage_order_witness :
    validSchedule acqInputs allAcqNodes acqExecutionOrder = true ∧
    posOf AcqNode.zip acqExecutionOrder < posOf AcqNode.save acqExecutionOrder :=
  ⟨by decide,
   (C2_pipeline_stage_order.2 acqExecutionOrder (by decide)).2.2.2.2.2.2.2.2⟩

/-! ## C5 — validity checking and conditional saving

The masking cells of `01_DataAcquisition.ipynb` define `checker_nodata`,
`checker_waterdata` and `zipper` and wire them through `MapFeatureTask`,
`ZipFeatureTask` and `SaveValidTask`.  Mask arrays are embedded as their
flattened list of entries (numpy truthiness of an entry is being nonzero). -/

/-- Embedding of `np.all(array)` on a flattened numeric array: every entry is
nonzero. -/
def npAllQ (array : List ℚ) : Bool :=
  array.all fun x => decide (x ≠ 0)

/-- Embedding of `np.count_nonzero(array)`. -/
def countNonzero (array : List ℚ) : Nat :=
  (array.filter fun x => decide (x ≠ 0)).length

/-- Notebook cell: `def checker_nodata(array): return bool(np.all(array))`. -/
def checker_nodata (array : List ℚ) : Bool :=
  npAllQ array

/-- Notebook cell:
`def checker_waterdata(array): return bool(np.count_nonzero(array)>=0.05*array.size)`. -/
def checker_waterdata (array : List ℚ) : Bool :=
  decide ((countNonzero array : ℚ) ≥ (5 / 100) * (array.length : ℚ))

/-- Notebook cell:
`def zipper(*arrays): return bool(np.all([np.all(array) for array in arrays]))`;
in the workflow it is applied to the two scalar boolean `META_INFO` features,
for which `np.all` is the identity. -/
def zipper (arrays : List Bool) : Bool :=
  (arrays.map fun b => b).all fun b => b

/-- The features of an acquisition `EOPatch` that the validity checking and
saving tasks read or write.  `none` in a `META_INFO` slot means the feature is
not present. -/
structure AcqPatch where
  dmask_data : List ℚ
  reference : List ℚ
  valid_data : Option Bool
  valid_reference : Option Bool
  valid : Option Bool
  deriving DecidableEq

/-- `MapFeatureTask` applying `checker_nodata` to `(MASK, 'dmask_data')`,
writing `(META_INFO, 'valid_data')`. -/
def task_data_check (p : AcqPatch) : AcqPatch :=
  { p with valid_data := some (checker_nodata p.dmask_data) }

/-- `MapFeatureTask` applying `checker_waterdata` to
`(MASK_TIMELESS, 'reference')`, writing `(META_INFO, 'valid_reference')`. -/
def task_reference_check (p : AcqPatch) : AcqPatch :=
  { p with valid_reference := some (checker_waterdata p.reference) }

/-- `MergeEOPatchesTask` joining the data branch and the reference branch of
the workflow into one `EOPatch` (the two branches carry disjoint features, so
the merge keeps each feature from the branch holding it). -/
def task_merge (pData pRef : AcqPatch) : AcqPatch :=
  { dmask_data := pData.dmask_data
    reference := pRef.reference
    valid_data := pData.valid_data
    valid_reference := pRef.valid_reference
    valid := none }

/-- `ZipFeatureTask` applying `zipper` to `(META_INFO, 'valid_data')` and
`(META_INFO, 'valid_reference')`, writing `(META_INFO, 'valid')`; accessing a
missing feature raises. -/
def task_zip (p : AcqPatch) : Except String AcqPatch :=
  match p.valid_data, p.valid_reference with
  | some a, some b => Except.ok { p with valid := some (zipper [a, b]) }
  | _, _ => Except.error "KeyError: missing META_INFO feature"

/-- Modelled from the spec: `SaveValidTask` (from the repository's `libs`
package, not among the provided sources) saves the `EOPatch` to disk exactly
when its `feature_to_check = (META_INFO, 'valid')` feature is truthy; the
returned option is the saved patch. -/
def task_save_valid (p : AcqPatch) : Except String (Option AcqPatch) :=
  match p.valid with
  | some v => Except.ok (if v then some p else none)
  | none => Except.error "KeyError: valid"

/-- Data branch of the acquisition workflow acting on the modelled features:
`task_data` and `task_pick` produce the data and its mask, `task_tdigest`
only adds the `tdigest_data` feature, then `task_data_check` runs. -/
def dataBranch (dmask : List ℚ) : AcqPatch :=
  task_data_check
    { dmask_data := dmask, reference := [],
      valid_data := none, valid_reference := none, valid := none }

/-- Reference branch of the acquisition workflow acting on the modelled
features: `task_reference` and `task_reference_mask` produce the reference
and its mask, then `task_reference_check` runs. -/
def refBranch (ref : List ℚ) : AcqPatch :=
  task_reference_check
    { dmask_data := [], reference := ref,
      valid_data := none, valid_reference := none, valid := none }

/-- The merged and zipped patch reaching `task_save`. -/
def acquisitionZippedPatch (dmask ref : List ℚ) : Except String AcqPatch :=
  task_zip (task_merge (dataBranch dmask) (refBranch ref))

/-- The whole tail of the acquisition workflow: `none` means the patch was
checked and discarded, `some p` means `p` was saved to disk. -/
def runAcquisitionWorkflow (dmask ref : List ℚ) : Except String (Option AcqPatch) :=
  acquisitionZippedPatch dmask ref >>= task_save_valid

/-- Shared core fact about the acquisition tail: the zipped `valid` feature
is the conjunction of the two criterion booleans and the save decision
matches it. -/
theorem acquisition_save_iff_core (dmask ref : List ℚ) :
    (∃ q : AcqPatch, acquisitionZippedPatch dmask ref = Except.ok q ∧
        q.valid = some (checker_nodata dmask && checker_waterdata ref)) ∧
    ((∃ p, runAcquisitionWorkflow dmask ref = Except.ok (some p)) ↔
      checker_nodata dmask = true ∧ checker_waterdata ref = true) := by
  constructor
  · refine ⟨_, rfl, ?_⟩
    simp [acquisitionZippedPatch, task_zip, task_merge, dataBranch, refBranch,
      task_data_check, task_reference_check, zipper]
  · cases h1 : checker_nodata dmask <;> cases h2 : checker_waterdata ref <;>
      simp [runAcquisitionWorkflow, acquisitionZippedPatch, task_zip, task_merge,
        dataBranch, refBranch, task_data_check, task_reference_check,
        task_save_valid, zipper, h1, h2, Bind.bind, Except.bind]

/-- C5: an `EOPatch` of the water-segmentation acquisition workflow is saved
exactly when every entry of its `dmask_data` mask is nonzero and at least 5%
of its reference pixels are nonzero, and the zipped `(META_INFO, 'valid')`
feature checked by `SaveValidTask` is the conjunction of the two
per-criterion booleans. -/
theorem C5_save_iff_valid (dmask ref : List ℚ) :
    (∃ q : AcqPatch, acquisitionZippedPatch dmask ref = Except.ok q ∧
        q.valid = some (checker_nodata dmask && checker_waterdata ref)) ∧
    ((∃ p, runAcquisitionWorkflow dmask ref = Except.ok (some p)) ↔
      checker_nodata dmask = true ∧ checker_waterdata ref = true) :=
  acquisition_save_iff_core dmask ref

/-! ## C7 — the reference evalscript

The `SentinelHubEvalscriptTask` of `01_DataAcquisition.ipynb` carries a
JavaScript evalscript whose `evaluatePixel` computes the NDWI via
`index(samples.B03, samples.B8A)` and thresholds it at `0.1`. -/

/-- Sentinel Hub's `index(a, b)` helper: the normalized difference
`(a - b) / (a + b)`. -/
def shIndex (a b : ℚ) : ℚ :=
  (a - b) / (a + b)

/-- Input bands and masks of one pixel, as requested by the evalscript's
`setup` function. -/
structure PixelSamples where
  b02 : ℚ
  b03 : ℚ
  b04 : ℚ
  b08 : ℚ
  b8a : ℚ
  b11 : ℚ
  dataMask : ℚ
  clm : Bool
  deriving DecidableEq

/-- Output bands of one pixel, as returned by the evalscript's
`evaluatePixel`. -/
structure PixelOutputs where
  b02 : ℚ
  b03 : ℚ
  b04 : ℚ
  b08 : ℚ
  b8a : ℚ
  b11 : ℚ
  ndwi : ℚ
  reference : ℚ
  dmask_reference : ℚ
  cmask_reference : Bool
  deriving DecidableEq

/-- Embedding of the evalscript's `evaluatePixel`: `val = index(B03, B8A)`,
`water = 1` when `val > 0.1` and `0` otherwise, and all outputs are returned
alongside. -/
def evaluatePixel (s : PixelSamples) : PixelOutputs :=
  let val := shIndex s.b03 s.b8a
  let water : ℚ := if val > 1 / 10 then 1 else 0
  { b02 := s.b02, b03 := s.b03, b04 := s.b04, b08 := s.b08, b8a := s.b8a,
    b11 := s.b11, ndwi := val, reference := water,
    dmask_reference := s.dataMask, cmask_reference := !s.clm }

/-- C7: for every pixel, the produced water reference label is `1` exactly
when the NDWI `index(B03, B8A)` is strictly greater than `0.1`, it is `0`
otherwise, and the raw NDWI value is returned in the NDWI output band. -/
theorem C7_reference_evalscript (s : PixelSamples) :
    ((evaluatePixel s).reference = 1 ↔ shIndex s.b03 s.b8a > 1 / 10) ∧
    ((evaluatePixel s).reference = 0 ↔ ¬ shIndex s.b03 s.b8a > 1 / 10) ∧
    (evaluatePixel s).ndwi = shIndex s.b03 s.b8a := by
  refine ⟨?_, ?_, rfl⟩ <;>
    by_cases h : shIndex s.b03 s.b8a > 1 / 10 <;>
      simp [evaluatePixel, h]

/-! ## C6 — the Torchify transform of the Treecurrent testing notebook

`04_Testing.ipynb` defines `torchify` (`np.moveaxis(array, -1, 0)`),
`nan_to_value` and the class `Torchify`, whose `__call__` dispatches on
`self.squeeze` with `if self.squeeze==True: ... elif type(self.squeeze)==int:
... else: ...`.  Python's `==` identifies `True` with `1`, and
`type(True)==int` is false because `bool` is a distinct type; the embedding
keeps both facts. -/

/-- Multi-dimensional numpy array: a shape together with the entry found at
each index list; `none` models a NaN entry. -/
structure NDArray where
  shape : List Nat
  val : List Nat → Option ℚ

/-- Notebook cell: `def torchify(array): return np.moveaxis(array, -1, 0)` —
the last axis moves to the front, the other axes keep their order. -/
def torchify (a : NDArray) : NDArray where
  shape :=
    match a.shape.reverse with
    | [] => []
    | lastDim :: restRev => lastDim :: restRev.reverse
  val := fun idx =>
    match idx with
    | [] => a.val []
    | j :: rest => a.val (rest ++ [j])

/-- Notebook cell: `def nan_to_value(array, value=0)` — every NaN entry is
replaced by `value`. -/
def nan_to_value (a : NDArray) (value : ℚ) : NDArray :=
  { shape := a.shape
    val := fun idx =>
      match a.val idx with
      | none => some value
      | some x => some x }

/-- Re-expand an index of the squeezed array to an index of the original
array by inserting `0` at every singleton axis. -/
def expandIdx : List Nat → List Nat → List Nat
  | [], _ => []
  | s :: ss, idx =>
      if s = 1 then 0 :: expandIdx ss idx
      else
        match idx with
        | [] => 0 :: expandIdx ss []
        | i :: is => i :: expandIdx ss is

/-- numpy `array.squeeze()`: all axes of size one are removed. -/
def npSqueezeAll (a : NDArray) : NDArray where
  shape := a.shape.filter fun s => s != 1
  val := fun idx => a.val (expandIdx a.shape idx)

/-- Remove the axis at position `j` from a shape. -/
def removeNth : List Nat → Nat → List Nat
  | [], _ => []
  | _ :: ss, 0 => ss
  | s :: ss, n + 1 => s :: removeNth ss n

/-- Insert index `0` at position `j` of an index list. -/
def insertZeroAt : Nat → List Nat → List Nat
  | 0, idx => 0 :: idx
  | _ + 1, [] => []
  | n + 1, i :: is => i :: insertZeroAt n is

/-- numpy `array.squeeze(axis)`: the selected axis is removed when it has
size one and an error is raised otherwise (negative axes count from the
end). -/
def npSqueezeAxis (a : NDArray) (ax : Int) : Except String NDArray :=
  let n := a.shape.length
  let i : Int := if ax < 0 then ax + n else ax
  if 0 ≤ i ∧ i < (n : Int) then
    let j := i.toNat
    if a.shape.getD j 0 = 1 then
      Except.ok { shape := removeNth a.shape j, val := fun idx => a.val (insertZeroAt j idx) }
    else Except.error "cannot select an axis to squeeze out which has size not equal to one"
  else Except.error "axis out of bounds"

/-- Python value stored in `self.squeeze`: the notebook constructs `Torchify`
either with a boolean or with an integer. -/
inductive PyIntBool
  | pybool (b : Bool)
  | pyint (n : Int)
  deriving DecidableEq

/-- Python equality `x == True`: `True` equals `1`, so an integer compares
equal to `True` exactly when it is `1`. -/
def pyEqTrue : PyIntBool → Bool
  | .pybool b => b
  | .pyint n => n == 1

/-- Python `type(x) == int`: false for booleans (their type is `bool`, a
distinct type from `int`), true for integers. -/
def pyTypeIsInt : PyIntBool → Bool
  | .pybool _ => false
  | .pyint _ => true

/-- The `Torchify` class of the notebook: constructor arguments `squeeze`
(default `False`) and `nanvalue` (default `0`). -/
structure Torchify where
  squeeze : PyIntBool
  nanvalue : ℚ

/-- Embedding of `Torchify.__call__`: first `torchify`, then `nan_to_value`,
then the squeeze dispatch `if self.squeeze==True: array_.squeeze() elif
type(self.squeeze)==int: array_.squeeze(self.squeeze) else: array_`. -/
def Torchify.call (t : Torchify) (array : NDArray) : Except String NDArray :=
  let array1 := torchify array
  let array2 := nan_to_value array1 t.nanvalue
  if pyEqTrue t.squeeze then Except.ok (npSqueezeAll array2)
  else if pyTypeIsInt t.squeeze then
    match t.squeeze with
    | .pyint n => npSqueezeAxis array2 n
    | .pybool _ => Except.ok array2
  else Except.ok array2

/-- The three branches of the squeeze dispatch in `Torchify.__call__`. -/
inductive TorchifyBranch
  | squeezeAllBranch
  | squeezeAxisBranch (n : Int)
  | idBranch
  deriving DecidableEq

/-- Which branch of `Torchify.__call__` a given `squeeze` value selects. -/
def branchOf (s : PyIntBool) : TorchifyBranch :=
  if pyEqTrue s then .squeezeAllBranch
  else if pyTypeIsInt s then
    match s with
    | .pyint n => .squeezeAxisBranch n
    | .pybool _ => .idBranch
  else .idBranch

/-- The claim C6 as stated: the integer-axis branch `squeeze(self.squeeze)`
is reachable only for integer squeeze values other than `0` and `1`. -/
def claimC6AxisBranchProp : Prop :=
  ∀ n : Int, (∃ k, branchOf (.pyint n) = .squeezeAxisBranch k) → n ≠ 0 ∧ n ≠ 1

/-- An array of shape `[1, 1]` whose single entry is `7`. -/
def exampleArray11 : NDArray where
  shape := [1, 1]
  val := fun _ => some 7

/-- Counterexample to C6 as stated: constructing `Torchify` with the integer
`squeeze = 0` does reach the integer-axis branch (`0 == True` is false in
Python, while `type(0) == int` holds), so the branch is not restricted to
integers other than `0` and `1`; on a `[1, 1]`-shaped array it removes only
axis `0` instead of all singleton axes. -/
theorem C6_counterexample :
    branchOf (PyIntBool.pyint 0) = TorchifyBranch.squeezeAxisBranch 0 ∧
    (Torchify.call ⟨PyIntBool.pyint 0, 0⟩ exampleArray11).map NDArray.shape =
      Except.ok [1] ∧
    ¬ claimC6AxisBranchProp := by
  refine ⟨rfl, rfl, fun h => ?_⟩
  exact (h 0 ⟨0, rfl⟩).1 rfl

/-- C6 (amended): `Torchify.__call__` first moves the last axis to the front
and replaces NaN entries with the configured `nanvalue`; `squeeze=1` selects
the squeeze-all branch (because `1 == True` in Python), removing all
singleton dimensions rather than only axis 1; and the integer-axis branch is
selected exactly for integer squeeze values other than `1` — including `0` —
while booleans select squeeze-all (`True`) or the identity (`False`). -/
theorem C6_torchify_amended :
    (∀ (v : ℚ) (a : NDArray) (j : Nat) (rest : List Nat), ∃ r : NDArray,
        Torchify.call ⟨PyIntBool.pybool false, v⟩ a = Except.ok r ∧
        r.val (j :: rest) =
          some (match a.val (rest ++ [j]) with | none => v | some x => x) ∧
        r.shape = (torchify a).shape) ∧
    (∀ (v : ℚ) (a : NDArray),
        Torchify.call ⟨PyIntBool.pyint 1, v⟩ a =
          Except.ok (npSqueezeAll (nan_to_value (torchify a) v)) ∧
        Torchify.call ⟨PyIntBool.pybool true, v⟩ a =
          Except.ok (npSqueezeAll (nan_to_value (torchify a) v))) ∧
    (∀ (v : ℚ) (f : List Nat → Option ℚ), ∃ r : NDArray,
        Torchify.call ⟨PyIntBool.pyint 1, v⟩ ⟨[1, 3, 4, 1], f⟩ = Except.ok r ∧
        r.shape = [3, 4] ∧
        (∀ i j : Nat, r.val [i, j] =
          some (match f [0, i, j, 0] with | none => v | some x => x)) ∧
        (npSqueezeAxis (nan_to_value (torchify ⟨[1, 3, 4, 1], f⟩) v) 1).map
            NDArray.shape = Except.ok [1, 3, 4]) ∧
    (∀ n : Int, branchOf (.pyint n) =
        if n = 1 then .squeezeAllBranch else .squeezeAxisBranch n) ∧
    branchOf (.pybool true) = .squeezeAllBranch ∧
    branchOf (.pybool false) = .idBranch := by
  refine ⟨?_, ?_, ?_, ?_, rfl, rfl⟩
  · intro v a j rest
    refine ⟨_, rfl, ?_, rfl⟩
    cases h : a.val (rest ++ [j]) <;>
      simp [nan_to_value, torchify, h]
  · intro v a
    exact ⟨rfl, rfl⟩
  · intro v f
    refine ⟨_, rfl, rfl, fun i j => ?_, rfl⟩
    cases h : f [0, i, j, 0] <;>
      simp [npSqueezeAll, expandIdx, nan_to_value, torchify, h]
  · intro n
    by_cases h : n = 1 <;> simp [branchOf, pyEqTrue, pyTypeIsInt, h]

/-! ## C1 — error handling of the workflow-argument loops and retries

The acquisition notebook builds `workflow_args` in a loop whose inner
per-timestamp body wraps the Sentinel-1 `get_available_timestamps` query in
`try/except`, printing the exception and moving on; the showcase notebook's
loop wraps its whole body the same way.  The showcase notebook, however,
constructs `ModelForwardTask(..., maxtries=3, timeout=22)`. -/

/-- Environment of one iteration of the inner (per-timestamp) body of the
acquisition `workflow_args` loop: the outcome of the wrapped Sentinel-1 query
(an exception message, or whether `timestamps2_` was nonempty), and whether
the target `EOPatch` folder already exists. -/
structure TimestampArgEnv where
  s1result : Except String Bool
  dirExists : Bool

/-- State accumulated by the loop: how many workflow arguments were appended,
which exception messages were printed, and how many queries were issued. -/
structure ArgLoopState where
  args : Nat
  printedErrors : List String
  queriesIssued : Nat
  deriving DecidableEq

/-- Whether one iteration appends a workflow argument: the query succeeded,
returned a nonempty timestamp list, and the folder does not exist yet. -/
def appendsArg (it : TimestampArgEnv) : Bool :=
  match it.s1result with
  | Except.ok nonempty => nonempty && !it.dirExists
  | Except.error _ => false

/-- One iteration of the inner body: exactly one query is issued; on an
exception the message is printed and the loop continues; on success an
argument is appended when `timestamps2_` is nonempty and the folder is new. -/
def processTimestampArg (st : ArgLoopState) (it : TimestampArgEnv) : ArgLoopState :=
  match it.s1result with
  | Except.error e =>
      { st with printedErrors := st.printedErrors ++ [e],
                queriesIssued := st.queriesIssued + 1 }
  | Except.ok _ =>
      { st with queriesIssued := st.queriesIssued + 1,
                args := if appendsArg it then st.args + 1 else st.args }

/-- The inner per-timestamp loop of the acquisition `workflow_args` cell. -/
def acquisitionArgLoop (items : List TimestampArgEnv) : ArgLoopState :=
  items.foldl processTimestampArg ⟨0, [], 0⟩

/-- The exception message printed by an iteration, if any. -/
def errOf (it : TimestampArgEnv) : Option String :=
  match it.s1result with
  | Except.error e => some e
  | Except.ok _ => none

/-- Constructor arguments of the `ModelForwardTask` in the showcase notebook
`04_PyTorchTasks_ModelForwardTask.ipynb`. -/
structure ModelForwardTaskArgs where
  maxtries : Nat
  timeout : Nat
  deriving DecidableEq

/-- The showcase notebook's construction:
`ModelForwardTask(..., maxtries=3, timeout=22)`. -/
def task_model_args : ModelForwardTaskArgs :=
  { maxtries := 3, timeout := 22 }

/-- Modelled from the spec: the `ModelForwardTask` of the GEM-ML `libs`
package (not among the provided sources) re-attempts its wrapped operation,
using up to `maxtries` attempts; `tryAttempts f i fuel` runs attempt `i` and
falls through to the next attempt on failure while fuel remains. -/
def tryAttempts {α : Type} (f : Nat → Except String α) : Nat → Nat → Except String α
  | _, 0 => Except.error "maxtries exceeded"
  | i, fuel + 1 =>
      match f i with
      | Except.ok v => Except.ok v
      | Except.error _ => tryAttempts f (i + 1) fuel

/-- Running an operation under a `maxtries` bound starts at attempt `0`. -/
def runWithMaxtries {α : Type} (maxtries : Nat) (f : Nat → Except String α) :
    Except String α :=
  tryAttempts f 0 maxtries

/-- An operation that fails on its first two attempts and succeeds on the
third. -/
def flakyOperation : Nat → Except String Nat :=
  fun i => if i = 2 then Except.ok 7 else Except.error "transient"

/-- The claim C1 as stated, in its refutable part: no repository-configured
task re-attempts a failed operation, i.e. every retry-configurable task the
notebooks construct allows at most one attempt. -/
def claimC1NoReattempts : Prop :=
  ∀ c ∈ [task_model_args], c.maxtries ≤ 1

/-- Counterexample to C1 as stated: the showcase notebook configures
`ModelForwardTask` with `maxtries = 3`, a repository-configured retry; under
the modelled retry semantics this configuration recovers an operation that
fails twice, which a single attempt does not. -/
theorem C1_counterexample :
    task_model_args.maxtries = 3 ∧
    ¬ claimC1NoReattempts ∧
    runWithMaxtries task_model_args.maxtries flakyOperation = Except.ok 7 ∧
    runWithMaxtries 1 flakyOperation = Except.error "maxtries exceeded" := by
  refine ⟨rfl, fun h => ?_, rfl, rfl⟩
  have := h task_model_args (List.mem_singleton.mpr rfl)
  simp [task_model_args] at this

theorem acquisitionArgLoop_foldl (init : ArgLoopState) :
    ∀ items : List TimestampArgEnv,
      (items.foldl processTimestampArg init).queriesIssued =
          init.queriesIssued + items.length ∧
      (items.foldl processTimestampArg init).printedErrors =
          init.printedErrors ++ items.filterMap errOf ∧
      (items.foldl processTimestampArg init).args =
          init.args + (items.filter appendsArg).length := by
  intro items
  induction items generalizing init with
  | nil => simp
  | cons it rest ih =>
      obtain ⟨h1, h2, h3⟩ := ih (processTimestampArg init it)
      have hq : (processTimestampArg init it).queriesIssued = init.queriesIssued + 1 := by
        cases hres : it.s1result <;> simp [processTimestampArg, hres]
      have hp : (processTimestampArg init it).printedErrors =
          init.printedErrors ++ (errOf it).toList := by
        cases hres : it.s1result <;> simp [processTimestampArg, errOf, hres]
      have ha : (processTimestampArg init it).args =
          init.args + (if appendsArg it then 1 else 0) := by
        cases hres : it.s1result with
        | error e => simp [processTimestampArg, appendsArg, hres]
        | ok nonempty =>
            simp only [processTimestampArg, hres]
            by_cases happ : appendsArg it <;> simp [happ]
      refine ⟨?_, ?_, ?_⟩
      · rw [List.foldl_cons, h1, hq, List.length_cons]
        omega
      · rw [List.foldl_cons, h2, hp, List.filterMap_cons]
        cases herr : errOf it <;> simp [herr]
      · rw [List.foldl_cons, h3, ha, List.filter_cons]
        by_cases happ : appendsArg it
        · simp only [happ, if_pos, List.length_cons]
          omega
        · simp [happ]

/-- C1 (amended): in the workflow-argument loops, every exception raised
inside the `try`-wrapped body is only printed and the loop continues —
each timestamp issues exactly one query (never a re-attempt), every
exception message is printed, and arguments keep being appended for the
remaining iterations — but a retry mechanism does exist in the repository:
the showcase notebook configures `ModelForwardTask` with `maxtries = 3`,
which re-attempts the wrapped forward operation up to three times. -/
theorem C1_error_handling_amended :
    (∀ items : List TimestampArgEnv,
        (acquisitionArgLoop items).queriesIssued = items.length ∧
        (acquisitionArgLoop items).printedErrors = items.filterMap errOf ∧
        (acquisitionArgLoop items).args = (items.filter appendsArg).length) ∧
    task_model_args.maxtries = 3 ∧
    runWithMaxtries task_model_args.maxtries flakyOperation = Except.ok 7 := by
  refine ⟨fun items => ?_, rfl, rfl⟩
  have h := acquisitionArgLoop_foldl ⟨0, [], 0⟩ items
  simpa [acquisitionArgLoop] using h

/-! ## C3 — merging the T-Digest sketches

`02_DataNormalization.ipynb` computes the global training-set T-Digest with a
single call `mergeTDigests(paths=[...], feature=(SCALAR_TIMELESS,
'tdigest_data'), ...)` and then uses that value unchanged: it is saved with
`np.save` and passed as the `tdigestarray` of the scaler. -/

/-- Path join as the notebook's `os.path.join(dir, entry)`. -/
def joinPath (a b : String) : String :=
  a ++ "/" ++ b

/-- The shard paths handed to `mergeTDigests`: one per entry of the training
directory, `os.path.join(config["dir_train"], dir_) for dir_ in
os.listdir(config["dir_train"])`. -/
def tdigestShardPaths (dir_train : String) (listdir : String → List String) :
    List String :=
  (listdir dir_train).map fun d => joinPath dir_train d

/-- The feature whose per-patch sketches are merged. -/
def tdigestFeature : String × String :=
  ("SCALAR_TIMELESS", "tdigest_data")

/-- Observable outcome of the normalization notebook's T-Digest handling: the
merged digest, the value stored to disk with its file name, and the value
handed to the scaler construction. -/
structure NormalizationOutcome (TD : Type) where
  tdigest : TD
  savedFile : String × TD
  scalerSource : TD

/-- Embedding of the T-Digest part of `02_DataNormalization.ipynb`,
parameterized by the external merge library.  Modelled from the spec:
`mergeTDigests` (in the repository's `libs` package, not among the provided
sources) is a thin wrapper delegating the merge to an existing statistical
library, so it enters the embedding as an abstract function of the shard
paths and the feature. -/
def runDataNormalization {TD : Type}
    (mergeLib : List String → String × String → TD)
    (dir_train dir_results savename_tdigest : String)
    (listdir : String → List String) : NormalizationOutcome TD :=
  let tdigest := mergeLib (tdigestShardPaths dir_train listdir) tdigestFeature
  { tdigest := tdigest
    savedFile := (joinPath dir_results savename_tdigest, tdigest)
    scalerSource := tdigest }

/-- C3: the global T-Digest of the normalization notebook is produced by a
single library call on the listed shard paths of the training directory —
every digest the notebook stores or feeds to the scaler equals exactly what
the library call returns, and the outcome is fully determined by the value of
that one call (two libraries agreeing on the listed paths and the
`tdigest_data` feature produce identical outcomes), so no merging of the
shards happens in the repository itself. -/
theorem C3_merge_tdigest_single_call {TD : Type}
    (mergeLib mergeLib2 : List String → String × String → TD)
    (dir_train dir_results savename_tdigest : String)
    (listdir : String → List String) :
    (runDataNormalization mergeLib dir_train dir_results savename_tdigest
        listdir).tdigest =
      mergeLib ((listdir dir_train).map fun d => joinPath dir_train d)
        ("SCALAR_TIMELESS", "tdigest_data") ∧
    (runDataNormalization mergeLib dir_train dir_results savename_tdigest
        listdir).savedFile.2 =
      (runDataNormalization mergeLib dir_train dir_results savename_tdigest
        listdir).tdigest ∧
    (runDataNormalization mergeLib dir_train dir_results savename_tdigest
        listdir).scalerSource =
      (runDataNormalization mergeLib dir_train dir_results savename_tdigest
        listdir).tdigest ∧
    (mergeLib (tdigestShardPaths dir_train listdir) tdigestFeature =
        mergeLib2 (tdigestShardPaths dir_train listdir) tdigestFeature →
      runDataNormalization mergeLib dir_train dir_results savename_tdigest
          listdir =
        runDataNormalization mergeLib2 dir_train dir_results savename_tdigest
          listdir) := by
  refine ⟨rfl, rfl, rfl, fun h => ?_⟩
  simp [runDataNormalization, h]

/-- Witness for C3 at concrete inputs: a library returning the path list
itself, a training directory with two shards, and a second library given by a
different expression but agreeing on the listed input. -/
theorem C3_merge_tdigest_single_call_witness :
    ((fun (ps : List String) (_ : String × String) => ps)
        (tdigestShardPaths "train" fun _ => ["eopatch_0", "eopatch_1"])
        tdigestFeature =
      (fun (ps : List String) (_ : String × String) => ps.map id)
        (tdigestShardPaths "train" fun _ => ["eopatch_0", "eopatch_1"])
        tdigestFeature) ∧
    runDataNormalization (fun ps _ => ps) "train" "results" "TDigest.npy"
        (fun _ => ["eopatch_0", "eopatch_1"]) =
      runDataNormalization (fun ps _ => ps.map id) "train" "results" "TDigest.npy"
        (fun _ => ["eopatch_0", "eopatch_1"]) :=
  ⟨by simp,
   (C3_merge_tdigest_single_call (fun ps _ => ps) (fun ps _ => ps.map id)
      "train" "results" "TDigest.npy"
      (fun _ => ["eopatch_0", "eopatch_1"])).2.2.2 (by simp)⟩

/-! ## C4 — quantile scaling from the merged T-Digest

`00_Configuration.ipynb` fixes `scaler_minquantile = 0.01`,
`scaler_maxquantile = 0.96`, `scaler_valmin = 0`, `scaler_valmax = 1`,
`scaler_nanval = [0,0]`, `scaler_infval = [0,0]`, and
`02_DataNormalization.ipynb` builds
`QuantileScaler_eolearn_tdigest(tdigestarray=tdigest, ...)` from them. -/

/-- A Python float as fed to the scaler: a finite value, NaN, or an
infinity. -/
inductive PyFloat
  | val (x : ℚ)
  | nan
  | posinf
  | neginf
  deriving DecidableEq

/-- One band of the merged T-Digest, abstracted by its quantile (percentile)
function. -/
structure TDigestBand where
  percentile : ℚ → ℚ

/-- Modelled from the spec: `QuantileScaler_eolearn_tdigest` (in the
repository's `libs` package, not among the provided sources) performs
quantile scaling derived from the T-Digest array: per band it maps the value
at `minquantile` to `valmin` and the value at `maxquantile` to `valmax`
affinely, and replaces NaN and infinite inputs by the per-band `nanval` and
`infval`. -/
structure QuantileScalerTD where
  qmin : List ℚ
  qmax : List ℚ
  valmin : ℚ
  valmax : ℚ
  nanval : List ℚ
  infval : List ℚ

/-- Construction of the scaler from the merged T-Digest array and the
configured parameters. -/
def mkQuantileScaler (tdigestarray : List TDigestBand)
    (minquantile maxquantile : ℚ) (nanval infval : List ℚ)
    (valmin valmax : ℚ) : QuantileScalerTD :=
  { qmin := tdigestarray.map fun td => td.percentile minquantile
    qmax := tdigestarray.map fun td => td.percentile maxquantile
    valmin := valmin
    valmax := valmax
    nanval := nanval
    infval := infval }

/-- Scaling one value of band `band`. -/
def QuantileScalerTD.scale (s : QuantileScalerTD) (band : Nat) (x : PyFloat) : ℚ :=
  match x with
  | .nan => s.nanval.getD band 0
  | .posinf => s.infval.getD band 0
  | .neginf => s.infval.getD band 0
  | .val x =>
      s.valmin +
        (x - s.qmin.getD band 0) / (s.qmax.getD band 0 - s.qmin.getD band 0) *
          (s.valmax - s.valmin)

/-- Configured value `config.scaler_minquantile = 0.01`. -/
def scaler_minquantile : ℚ := 1 / 100

/-- Configured value `config.scaler_maxquantile = 0.96`. -/
def scaler_maxquantile : ℚ := 96 / 100

/-- Configured value `config.scaler_valmin = 0`. -/
def scaler_valmin : ℚ := 0

/-- Configured value `config.scaler_valmax = 1`. -/
def scaler_valmax : ℚ := 1

/-- Configured value `config.scaler_nanval = [0,0]`. -/
def scaler_nanval : List ℚ := [0, 0]

/-- Configured value `config.scaler_infval = [0,0]`. -/
def scaler_infval : List ℚ := [0, 0]

/-- The scaler the water-segmentation pipeline constructs from the merged
T-Digest and the configuration. -/
def waterSegScaler (tdigestarray : List TDigestBand) : QuantileScalerTD :=
  mkQuantileScaler tdigestarray scaler_minquantile scaler_maxquantile
    scaler_nanval scaler_infval scaler_valmin scaler_valmax

/-- C4: the scaler used for training and inference is constructed from the
merged T-Digest array so that per band the value at the configured minimum
quantile 0.01 is mapped to `scaler_valmin = 0` and the value at the
configured maximum quantile 0.96 is mapped to `scaler_valmax = 1`, while NaN
and infinite inputs are replaced by the configured per-band `nanval`/`infval`
of 0. -/
theorem C4_quantile_scaler (tds : List TDigestBand) (b : Nat)
    (hb : b < tds.length)
    (hne : (tds.get ⟨b, hb⟩).percentile scaler_maxquantile ≠
      (tds.get ⟨b, hb⟩).percentile scaler_minquantile) :
    (waterSegScaler tds).scale b
        (.val ((tds.get ⟨b, hb⟩).percentile scaler_minquantile)) = 0 ∧
    (waterSegScaler tds).scale b
        (.val ((tds.get ⟨b, hb⟩).percentile scaler_maxquantile)) = 1 ∧
    (waterSegScaler tds).scale b .nan = 0 ∧
    (waterSegScaler tds).scale b .posinf = 0 ∧
    (waterSegScaler tds).scale b .neginf = 0 := by
  have hblt : b < (tds.map fun td => td.percentile scaler_minquantile).length := by
    simpa using hb
  have hblt2 : b < (tds.map fun td => td.percentile scaler_maxquantile).length := by
    simpa using hb
  have hqmin : (waterSegScaler tds).qmin.getD b 0 =
      (tds.get ⟨b, hb⟩).percentile scaler_minquantile := by
    have h1 : (waterSegScaler tds).qmin =
        tds.map fun td => td.percentile scaler_minquantile := rfl
    rw [h1, List.getD_eq_getElem _ _ hblt]
    simp
  have hqmax : (waterSegScaler tds).qmax.getD b 0 =
      (tds.get ⟨b, hb⟩).percentile scaler_maxquantile := by
    have h1 : (waterSegScaler tds).qmax =
        tds.map fun td => td.percentile scaler_maxquantile := rfl
    rw [h1, List.getD_eq_getElem _ _ hblt2]
    simp
  have hnan : (waterSegScaler tds).nanval.getD b 0 = 0 := by
    have h1 : (waterSegScaler tds).nanval = [0, 0] := rfl
    rw [h1]
    match b with
    | 0 => rfl
    | 1 => rfl
    | n + 2 => exact List.getD_eq_default _ _ (by simp)
  have hinf : (waterSegScaler tds).infval.getD b 0 = 0 := by
    have h1 : (waterSegScaler tds).infval = [0, 0] := rfl
    rw [h1]
    match b with
    | 0 => rfl
    | 1 => rfl
    | n + 2 => exact List.getD_eq_default _ _ (by simp)
  have hvmin : (waterSegScaler tds).valmin = 0 := rfl
  have hvmax : (waterSegScaler tds).valmax = 1 := rfl
  refine ⟨?_, ?_, ?_, ?_, ?_⟩
  · simp only [QuantileScalerTD.scale, hqmin, hqmax, hvmin, hvmax]
    simp [sub_self]
  · simp only [QuantileScalerTD.scale, hqmin, hqmax, hvmin, hvmax]
    rw [div_self (sub_ne_zero.mpr hne)]
    norm_num
  · simp only [QuantileScalerTD.scale]
    exact hnan
  · simp only [QuantileScalerTD.scale]
    exact hinf
  · simp only [QuantileScalerTD.scale]
    exact hinf

/-- Witness for C4 at a concrete T-Digest whose band quantile function is the
identity. -/
theorem C4_quantile_scaler_witness :
    (0 : Nat) < ([⟨fun q => q⟩] : List TDigestBand).length ∧
    (([⟨fun q => q⟩] : List TDigestBand).get ⟨0, by decide⟩).percentile
        scaler_maxquantile ≠
      (([⟨fun q => q⟩] : List TDigestBand).get ⟨0, by decide⟩).percentile
        scaler_minquantile ∧
    (waterSegScaler [⟨fun q => q⟩]).scale 0 (.val scaler_minquantile) = 0 ∧
    (waterSegScaler [⟨fun q => q⟩]).scale 0 (.val scaler_maxquantile) = 1 ∧
    (waterSegScaler [⟨fun q => q⟩]).scale 0 .nan = 0 := by
  have h := C4_quantile_scaler [⟨fun q => q⟩] 0 (by decide)
    (by norm_num [scaler_maxquantile, scaler_minquantile])
  exact ⟨by decide,
    by norm_num [scaler_maxquantile, scaler_minquantile],
    h.1, h.2.1, h.2.2.1⟩

/-! ## C9 — GeoTiff export of the showcase inference workflow

`04_PyTorchTasks_ModelForwardTask.ipynb` builds the chain `node_data ->
node_model -> node_tiff -> node_save`, where `task_tiff =
ExportToTiffTask(feature=(MASK,'model_output'), ..., fail_on_missing=True)`
and `task_save = SaveTask(...)`. -/

/-- Nodes of the showcase workflow. -/
inductive ShowNode
  | data | model | tiff | save
  deriving DecidableEq

/-- Input dependencies of the showcase workflow, transcribed from the
`EONode` definitions. -/
def showInputs : ShowNode → List ShowNode
  | .data => []
  | .model => [.data]
  | .tiff => [.model]
  | .save => [.tiff]

/-- All nodes of the showcase workflow. -/
def allShowNodes : List ShowNode :=
  [.data, .model, .tiff, .save]

/-- The execution order produced by `EOWorkflow.from_endnodes(node_save)` for
the showcase chain. -/
def showExecutionOrder : List ShowNode :=
  [.data, .model, .tiff, .save]

/-- Features of a showcase `EOPatch` that the modelled tasks read or write:
the Sentinel-1 input `(DATA, 'data')` and the predicted water mask
`(MASK, 'model_output')`. -/
structure ShowPatch where
  dataFeat : Option (List ℚ)
  model_output : Option (List ℚ)

/-- Constructor arguments of the `ExportToTiffTask` in the showcase
notebook. -/
structure TiffTaskArgs where
  feature : String × String
  fail_on_missing : Bool
  deriving DecidableEq

/-- The showcase notebook's construction:
`ExportToTiffTask(feature=(FeatureType.MASK,'model_output'), ...,
fail_on_missing=True, compress="deflate")`. -/
def task_tiff_args : TiffTaskArgs :=
  { feature := ("MASK", "model_output"), fail_on_missing := true }

/-- Modelled from the spec: `ExportToTiffTask` (of the external `eolearn.io`
package, consumed as-is) writes the selected feature as a GeoTiff under the
given file name; when the feature is absent it raises if `fail_on_missing`
is set and silently skips the export otherwise. -/
def exportToTiff (args : TiffTaskArgs) (filename : String) (p : ShowPatch) :
    Except String (ShowPatch × Option (String × List ℚ)) :=
  match p.model_output with
  | some arr => Except.ok (p, some (filename, arr))
  | none =>
      if args.fail_on_missing then
        Except.error "fail_on_missing: feature (MASK, model_output) is absent"
      else Except.ok (p, none)

/-- State of one showcase workflow execution: the patch flowing through the
node chain, the GeoTiffs written so far, the patches saved so far, and the
trace of executed nodes. -/
structure ShowState where
  patch : ShowPatch
  tiffs : List (String × List ℚ)
  savedPatches : List String
  trace : List ShowNode

/-- One node of the showcase workflow: `task_data` downloads the input
feature, `task_model` writes the model's prediction of the input into
`(MASK, 'model_output')`, `task_tiff` exports it, `task_save` stores the
patch. -/
def runShowNode (modelFun : List ℚ → List ℚ) (input : List ℚ)
    (filename folder : String) (st : ShowState) (n : ShowNode) :
    Except String ShowState :=
  match n with
  | .data =>
      Except.ok { st with patch := { st.patch with dataFeat := some input },
                          trace := st.trace ++ [ShowNode.data] }
  | .model =>
      match st.patch.dataFeat with
      | none => Except.error "KeyError: feature (DATA, data) is absent"
      | some arr =>
          Except.ok { st with
            patch := { st.patch with model_output := some (modelFun arr) },
            trace := st.trace ++ [ShowNode.model] }
  | .tiff =>
      match exportToTiff task_tiff_args filename st.patch with
      | Except.error e => Except.error e
      | Except.ok (p, none) =>
          Except.ok { st with patch := p, trace := st.trace ++ [ShowNode.tiff] }
      | Except.ok (p, some t) =>
          Except.ok { st with patch := p, tiffs := st.tiffs ++ [t],
                              trace := st.trace ++ [ShowNode.tiff] }
  | .save =>
      Except.ok { st with savedPatches := st.savedPatches ++ [folder],
                          trace := st.trace ++ [ShowNode.save] }

/-- Execution of the showcase workflow along a given node order. -/
def runShowSchedule (modelFun : List ℚ → List ℚ) (input : List ℚ)
    (filename folder : String) (order : List ShowNode) :
    Except String ShowState :=
  order.foldlM (runShowNode modelFun input filename folder)
    ⟨⟨none, none⟩, [], [], []⟩

/-- C9: the showcase workflow exports the predicted water mask
`(MASK, 'model_output')` as a GeoTiff before the `EOPatch` is saved: the
export task is configured with `fail_on_missing = True` and raises when the
feature is absent; in every execution order respecting the `EONode` inputs
the tiff node runs after the model node and before the save node; and
running the workflow writes exactly the GeoTiff of the model's output and
saves the patch afterwards. -/
theorem C9_export_before_save :
    task_tiff_args.fail_on_missing = true ∧
    task_tiff_args.feature = ("MASK", "model_output") ∧
    (∀ (filename : String) (p : ShowPatch), p.model_output = none →
      exportToTiff task_tiff_args filename p =
        Except.error "fail_on_missing: feature (MASK, model_output) is absent") ∧
    (∀ order : List ShowNode,
      validSchedule showInputs allShowNodes order = true →
        posOf ShowNode.model order < posOf ShowNode.tiff order ∧
        posOf ShowNode.tiff order < posOf ShowNode.save order) ∧
    (∀ (modelFun : List ℚ → List ℚ) (input : List ℚ) (filename folder : String),
      ∃ st : ShowState,
        runShowSchedule modelFun input filename folder showExecutionOrder =
          Except.ok st ∧
        st.tiffs = [(filename, modelFun input)] ∧
        st.savedPatches = [folder] ∧
        st.patch.model_output = some (modelFun input) ∧
        st.trace = [ShowNode.data, ShowNode.model, ShowNode.tiff, ShowNode.save]) ∧
    validSchedule showInputs allShowNodes showExecutionOrder = true := by
  refine ⟨rfl, rfl, ?_, ?_, ?_, by decide⟩
  · intro filename p hp
    simp [exportToTiff, hp, task_tiff_args]
  · intro order h
    exact ⟨validSchedule_input_before showInputs allShowNodes order h _ _
        (by decide) (by decide),
      validSchedule_input_before showInputs allShowNodes order h _ _
        (by decide) (by decide)⟩
  · intro modelFun input filename folder
    refine ⟨_, rfl, ?_, ?_, ?_, ?_⟩ <;>
      simp [runShowSchedule, runShowNode, exportToTiff, task_tiff_args,
        List.foldlM]

/-- Witness for C9 at concrete inputs: a patch without the model-output
feature, the concrete execution order, and a concrete model. -/
theorem C9_export_before_save_witness :
    (ShowPatch.mk none none).model_output = none ∧
    exportToTiff task_tiff_args "water_0" (ShowPatch.mk none none) =
      Except.error "fail_on_missing: feature (MASK, model_output) is absent" ∧
    validSchedule showInputs allShowNodes showExecutionOrder = true ∧
    posOf ShowNode.tiff showExecutionOrder < posOf ShowNode.save showExecutionOrder :=
  ⟨rfl,
   C9_export_before_save.2.2.1 "water_0" (ShowPatch.mk none none) rfl,
   by decide,
   (C9_export_before_save.2.2.2.1 showExecutionOrder (by decide)).2⟩

/-! ## C8 — originality of the pipeline-deciding functions

The claim asserts that every function whose behaviour matters to the
pipelines is a call into a third-party library rather than logic defined in
the repository.  The notebooks, however, define several such functions
themselves: the validity checkers `checker_nodata` and `checker_waterdata`,
the `zipper`, the `Torchify` transform and the reference evalscript, all
embedded above directly from notebook cells. -/

/-- Where a pipeline-deciding function is defined. -/
inductive Provenance
  | repositoryDefined
  | thirdPartyCall
  deriving DecidableEq

/-- A function whose behaviour matters to the pipelines, with the place of
its definition. -/
structure PipelineFunction where
  name : String
  provenance : Provenance
  deriving DecidableEq

/-- The functions the pipelines' observable behaviour depends on, with their
provenance as read off the notebooks: the first five are `def`/`class`
statements or evalscript source in notebook cells, the last three are
imported library entry points. -/
def pipelineFunctions : List PipelineFunction :=
  [⟨"checker_nodata", .repositoryDefined⟩,
   ⟨"checker_waterdata", .repositoryDefined⟩,
   ⟨"zipper", .repositoryDefined⟩,
   ⟨"Torchify.__call__", .repositoryDefined⟩,
   ⟨"evaluatePixel (reference evalscript)", .repositoryDefined⟩,
   ⟨"mergeTDigests", .thirdPartyCall⟩,
   ⟨"EOExecutor.run", .thirdPartyCall⟩,
   ⟨"ExecuteME.execute", .thirdPartyCall⟩]

/-- The claim C8 as stated: every function whose behaviour matters to the
pipelines is a call into a third-party library. -/
def claimC8AllThirdParty : Prop :=
  ∀ f ∈ pipelineFunctions, f.provenance = Provenance.thirdPartyCall

/-- Counterexample to C8 as stated: `checker_waterdata` is defined in the
acquisition notebook itself, and this repository-defined logic decides
pipeline behaviour — a reference mask with its single pixel set is accepted
while one with its single pixel clear is rejected, and with it the save
decision of the acquisition workflow flips. -/
theorem C8_counterexample :
    ¬ claimC8AllThirdParty ∧
    checker_waterdata [1] = true ∧
    checker_waterdata [0] = false ∧
    (∃ p, runAcquisitionWorkflow [1] [1] = Except.ok (some p)) ∧
    ¬ (∃ p, runAcquisitionWorkflow [1] [0] = Except.ok (some p)) := by
  have w1 : checker_waterdata [1] = true := by
    rw [checker_waterdata, decide_eq_true_eq]
    norm_num [countNonzero]
  have w0 : checker_waterdata [0] = false := by
    rw [checker_waterdata, decide_eq_false_iff_not]
    norm_num [countNonzero]
  have n1 : checker_nodata [1] = true := by
    norm_num [checker_nodata, npAllQ]
  refine ⟨fun h => ?_, w1, w0,
    (acquisition_save_iff_core [1] [1]).2.mpr ⟨n1, w1⟩,
    fun hex => ?_⟩
  · have := h ⟨"checker_waterdata", .repositoryDefined⟩ (by decide)
    simp at this
  · have h2 := (acquisition_save_iff_core [1] [0]).2.mp hex
    rw [w0] at h2
    exact absurd h2.2 (by simp)

/-- C8 (amended): the pipelines delegate their heavy computation to external
libraries, but original logic does exist in the repository: the notebooks
themselves define functions whose behaviour matters to the pipelines,
among them `checker_waterdata`, whose repository-defined 5% water-coverage
contract — accept exactly when twenty times the number of nonzero reference
pixels reaches the pixel count — decides which `EOPatch`es the acquisition
workflow saves. -/
theorem C8_original_logic_amended :
    (∃ f ∈ pipelineFunctions, f.provenance = Provenance.repositoryDefined) ∧
    (∀ array : List ℚ,
      checker_waterdata array = true ↔ array.length ≤ 20 * countNonzero array) ∧
    (∀ dmask ref : List ℚ,
      (∃ p, runAcquisitionWorkflow dmask ref = Except.ok (some p)) ↔
        checker_nodata dmask = true ∧ checker_waterdata ref = true) ∧
    checker_waterdata [1] ≠ checker_waterdata [0] := by
  have w1 : checker_waterdata [1] = true := by
    rw [checker_waterdata, decide_eq_true_eq]
    norm_num [countNonzero]
  have w0 : checker_waterdata [0] = false := by
    rw [checker_waterdata, decide_eq_false_iff_not]
    norm_num [countNonzero]
  refine ⟨⟨⟨"checker_nodata", .repositoryDefined⟩, by decide, rfl⟩, ?_, ?_,
    by rw [w1, w0]; simp⟩
  · intro array
    rw [checker_waterdata, decide_eq_true_eq, ge_iff_le]
    constructor
    · intro h
      have h2 : (array.length : ℚ) ≤ 20 * (countNonzero array : ℚ) := by
        linarith
      exact_mod_cast h2
    · intro h
      have h2 : (array.length : ℚ) ≤ 20 * (countNonzero array : ℚ) := by
        exact_mod_cast h
      linarith
  · intro dmask ref
    exact (acquisition_save_iff_core dmask ref).2

end EOLearnExamples
